import Mathlib

/-!
Verification of the core of the `tauri-plugin` crate of the
webdriverio desktop-mobile-testing repository: the cross-context execute
bridge (`src/commands.rs`, `execute`) and the mock registry
(`src/mock_store.rs`, `MockStore`), against the repository's
natural-language specification.

The Rust code is shallowly embedded: `serde_json::Value` becomes the
inductive `Json`, the `HashMap`-backed `MockStore` becomes an
association-list structure with the same operations, and the
event-driven body of `execute` becomes a pure function over an explicit
"world" describing what the remote context does (whether the dispatch
`eval` succeeds, and which payloads are delivered on the call's topic
before the 30-second timeout).
-/

namespace Wdio

/-- Model of `serde_json::Value`.  Numbers are modelled as integers
(`serde_json::Number` also carries floats; no property here depends on
non-integer numbers). -/
inductive Json where
  | null : Json
  | bool (b : Bool) : Json
  | num (n : Int) : Json
  | str (s : String) : Json
  | arr (xs : List Json) : Json
  | obj (fields : List (String × Json)) : Json
deriving Repr

/-- One character of serde's compact string escaping (`"` , `\` and the
common control characters; the `\u00XX` escapes serde produces for other
control characters are elided, as no property depends on them). -/
def escapeChar (c : Char) : String :=
  if c = '"' then "\\\""
  else if c = '\\' then "\\\\"
  else if c = '\n' then "\\n"
  else if c = '\r' then "\\r"
  else if c = '\t' then "\\t"
  else String.singleton c

/-- serde's rendering of a JSON string literal, quotes included. -/
def renderString (s : String) : String :=
  "\"" ++ String.join (s.toList.map escapeChar) ++ "\""

mutual

/-- Model of `serde_json::to_string`: compact rendering, no spaces. -/
def Json.render : Json → String
  | .null => "null"
  | .bool true => "true"
  | .bool false => "false"
  | .num n => toString n
  | .str s => renderString s
  | .arr xs => "[" ++ Json.renderItems xs ++ "]"
  | .obj fs => "\x7b" ++ Json.renderFields fs ++ "\x7d"

/-- Comma-separated rendering of array elements. -/
def Json.renderItems : List Json → String
  | [] => ""
  | [x] => Json.render x
  | x :: y :: xs => Json.render x ++ "," ++ Json.renderItems (y :: xs)

/-- Comma-separated rendering of object members. -/
def Json.renderFields : List (String × Json) → String
  | [] => ""
  | [f] => renderString f.1 ++ ":" ++ Json.render f.2
  | f :: g :: fs => renderString f.1 ++ ":" ++ Json.render f.2 ++ "," ++ Json.renderFields (g :: fs)

end

/-- Model of `serde_json::Value::get(key)`: field lookup on an object,
`None` on every other variant. -/
def Json.get (v : Json) (key : String) : Option Json :=
  match v with
  | .obj fs => (fs.find? (fun f => f.1 == key)).map (fun f => f.2)
  | _ => none

/-- Model of `serde_json::Value::as_str`. -/
def Json.asStr : Json → Option String
  | .str s => some s
  | _ => none

/-- `MockConfig` from `src/models.rs`: the command name being overridden,
an optional literal return value, and an optional serialized
implementation. -/
structure MockConfig where
  command : String
  return_value : Option Json
  implementation : Option String

/-- `MockStore` from `src/mock_store.rs`.  The two `HashMap`s are
modelled as association lists with unique keys maintained by insertion
(observable behaviour through `get`/`insert`/`clear` is identical). -/
structure MockStore where
  mocks : List (String × MockConfig)
  original_handlers : List (String × Json)

/-- `MockStore::new`. -/
def MockStore.new : MockStore :=
  { mocks := [], original_handlers := [] }

/-- `MockStore::set_mock`: `self.mocks.insert(command, config)` —
insert-or-overwrite keyed by the `command` argument. -/
def MockStore.set_mock (s : MockStore) (command : String) (config : MockConfig) : MockStore :=
  { s with mocks := (command, config) :: s.mocks.filter (fun e => e.1 != command) }

/-- `MockStore::get_mock`: `self.mocks.get(command)`. -/
def MockStore.get_mock (s : MockStore) (command : String) : Option MockConfig :=
  (s.mocks.find? (fun e => e.1 == command)).map (fun e => e.2)

/-- `MockStore::clear_mocks`: `self.mocks.clear()` — the original-handler
table is not touched. -/
def MockStore.clear_mocks (s : MockStore) : MockStore :=
  { s with mocks := [] }

/-- `MockStore::reset_mocks`: clears both tables. -/
def MockStore.reset_mocks (s : MockStore) : MockStore :=
  { s with mocks := [], original_handlers := [] }

/-- `MockStore::remove_mock`. -/
def MockStore.remove_mock (s : MockStore) (command : String) : MockStore :=
  { s with mocks := s.mocks.filter (fun e => e.1 != command) }

/-! ### A JSON reader, modelling `serde_json::from_str::<serde_json::Value>`

The `execute` listener parses two strings as JSON: the event payload, and
(when the payload's `result` field is a string) the transported result.
The grammar fragment below covers objects, arrays, strings with the
common escapes, integers, and the three literals; `\uXXXX` escapes and
non-integer numbers are elided, as no property depends on them.
Recursion is driven by an explicit fuel argument, seeded with the input
length. -/

/-- Skip JSON insignificant whitespace. -/
def skipWs : List Char → List Char
  | c :: cs => if c == ' ' || c == '\n' || c == '\t' || c == '\r' then skipWs cs else c :: cs
  | [] => []

/-- Read the body of a JSON string literal (the opening quote already
consumed), returning the decoded string and the input after the closing
quote. -/
def readStringBody : Nat → List Char → Option (String × List Char)
  | 0, _ => none
  | _ + 1, [] => none
  | fuel + 1, c :: cs =>
    if c == '"' then some ("", cs)
    else if c == '\\' then
      match cs with
      | [] => none
      | e :: cs2 =>
        let dec : Option Char :=
          if e == '"' then some '"'
          else if e == '\\' then some '\\'
          else if e == '/' then some '/'
          else if e == 'n' then some '\n'
          else if e == 't' then some '\t'
          else if e == 'r' then some '\r'
          else none
        match dec with
        | some d => (readStringBody fuel cs2).map (fun r => (String.singleton d ++ r.1, r.2))
        | none => none
    else (readStringBody fuel cs).map (fun r => (String.singleton c ++ r.1, r.2))

/-- Take a maximal run of decimal digit characters. -/
def takeDigits : List Char → (List Char × List Char)
  | c :: cs =>
    if c.isDigit then
      let r := takeDigits cs
      (c :: r.1, r.2)
    else ([], c :: cs)
  | [] => ([], [])

/-- Decimal value of a digit run. -/
def digitsToNat (ds : List Char) : Nat :=
  ds.foldl (fun n c => n * 10 + (c.toNat - 48)) 0

mutual

/-- Read one JSON value, returning it and the remaining input. -/
def readValue : Nat → List Char → Option (Json × List Char)
  | 0, _ => none
  | fuel + 1, input =>
    match skipWs input with
    | [] => none
    | c :: cs =>
      if c == 'n' then
        match cs with
        | 'u' :: 'l' :: 'l' :: rest => some (Json.null, rest)
        | _ => none
      else if c == 't' then
        match cs with
        | 'r' :: 'u' :: 'e' :: rest => some (Json.bool true, rest)
        | _ => none
      else if c == 'f' then
        match cs with
        | 'a' :: 'l' :: 's' :: 'e' :: rest => some (Json.bool false, rest)
        | _ => none
      else if c == '"' then
        (readStringBody fuel cs).map (fun r => (Json.str r.1, r.2))
      else if c == '[' then
        readArrayItems fuel cs
      else if c == Char.ofNat 123 then
        readObjFields fuel cs
      else if c == '-' then
        match takeDigits cs with
        | ([], _) => none
        | (ds, rest) => some (Json.num (-(digitsToNat ds : Int)), rest)
      else if c.isDigit then
        match takeDigits (c :: cs) with
        | (ds, rest) => some (Json.num (digitsToNat ds), rest)
      else none

/-- Read the items of an array (the `[` already consumed). -/
def readArrayItems : Nat → List Char → Option (Json × List Char)
  | 0, _ => none
  | fuel + 1, input =>
    match skipWs input with
    | ']' :: rest => some (Json.arr [], rest)
    | other =>
      match readValue fuel other with
      | none => none
      | some (v, rest1) => readArrayTail fuel [v] rest1

/-- Read `, item`* `]` after at least one array item. -/
def readArrayTail : Nat → List Json → List Char → Option (Json × List Char)
  | 0, _, _ => none
  | fuel + 1, acc, input =>
    match skipWs input with
    | ']' :: rest => some (Json.arr acc.reverse, rest)
    | ',' :: rest =>
      match readValue fuel rest with
      | none => none
      | some (v, rest1) => readArrayTail fuel (v :: acc) rest1
    | _ => none

/-- Read the members of an object (the opening brace already consumed). -/
def readObjFields : Nat → List Char → Option (Json × List Char)
  | 0, _ => none
  | fuel + 1, input =>
    match skipWs input with
    | c :: rest =>
      if c == Char.ofNat 125 then some (Json.obj [], rest)
      else if c == '"' then
        match readStringBody fuel rest with
        | none => none
        | some (k, rest1) =>
          match skipWs rest1 with
          | ':' :: rest2 =>
            match readValue fuel rest2 with
            | none => none
            | some (v, rest3) => readObjTail fuel [(k, v)] rest3
          | _ => none
      else none
    | [] => none

/-- Read `, member`* and the closing brace after at least one member. -/
def readObjTail : Nat → List (String × Json) → List Char → Option (Json × List Char)
  | 0, _, _ => none
  | fuel + 1, acc, input =>
    match skipWs input with
    | c :: rest =>
      if c == Char.ofNat 125 then some (Json.obj acc.reverse, rest)
      else if c == ',' then
        match skipWs rest with
        | '"' :: rest1 =>
          match readStringBody fuel rest1 with
          | none => none
          | some (k, rest2) =>
            match skipWs rest2 with
            | ':' :: rest3 =>
              match readValue fuel rest3 with
              | none => none
              | some (v, rest4) => readObjTail fuel ((k, v) :: acc) rest4
            | _ => none
        | _ => none
      else none
    | [] => none

end

/-- Model of `serde_json::from_str::<serde_json::Value>`: parse a whole
input as one JSON value, rejecting trailing garbage. -/
def Json.parse (s : String) : Option Json :=
  match readValue (s.length + 1) s.toList with
  | some (v, rest) => if (skipWs rest).isEmpty then some v else none
  | none => none

/-! ### The execute bridge (`src/commands.rs`, `execute`) -/

/-- `ExecuteRequest` from `src/models.rs`: the script text and its
positional JSON arguments. -/
structure ExecuteRequest where
  script : String
  args : List Json

/-- The crate's error taxonomy.  `mod error` is referenced from
`lib.rs` but its file is not in the sources; the three variants are
exactly the ones constructed in `src/commands.rs`
(`crate::Error::SerializationError`, `crate::Error::ExecuteError`,
`crate::Error::MockError`), matching the spec's §7 error kinds. -/
inductive Error where
  | SerializationError (msg : String) : Error
  | ExecuteError (msg : String) : Error
  | MockError (msg : String) : Error
deriving Repr, DecidableEq

/-- The correlation id of `execute` (`commands.rs` line 48):
`format!("wdio:execute:{}", timestamp)`.  Despite the comment above it
("Use timestamp + random number for unique event ID"), only the
timestamp enters the id. -/
def eventId (timestamp : Nat) : String :=
  "wdio:execute:" ++ toString timestamp

/-- The effective script (`commands.rs` lines 21–30): when `args` is
non-empty, the serialized argument list is bound to `__wdio_args` in a
local scope around `request.script`; otherwise `request.script` is used
verbatim.  (`serde_json::to_string` of a `Vec<Value>` cannot fail, and
the model's renderer is total, so the `SerializationError` arm of line
24 is unreachable here.) -/
def buildScript (request : ExecuteRequest) : String :=
  if !request.args.isEmpty then
    "(function() \x7b const __wdio_args = " ++ Json.render (Json.arr request.args) ++
      "; return (" ++ request.script ++ "); \x7d)()"
  else
    request.script

/-- A single quote character, used inside the completion envelope. -/
def sq : String := String.singleton (Char.ofNat 39)

/-- The completion envelope (`commands.rs` lines 97–123): the effective
script is evaluated, its outcome serialized and emitted on the call's
topic as `{ result: jsonResult }` or `{ error: errorMsg }`, trying the
global Tauri handle first and the imported event module as fallback. -/
def scriptWithReturn (script : String) (eid : String) : String :=
  "\n        (async () => \x7b\n            try \x7b\n                const result = await (" ++
  script ++
  ");\n                const jsonResult = JSON.stringify(result);\n                // Use Tauri event API to send result back to Rust\n                if (window.__TAURI__?.event?.emit) \x7b\n                    window.__TAURI__.event.emit(" ++
  sq ++ eid ++ sq ++
  ", \x7b result: jsonResult \x7d);\n                \x7d else \x7b\n                    // Fallback: try importing from @tauri-apps/api/event\n                    const \x7b emit \x7d = await import(" ++
  sq ++ "@tauri-apps/api/event" ++ sq ++
  ");\n                    emit(" ++
  sq ++ eid ++ sq ++
  ", \x7b result: jsonResult \x7d);\n                \x7d\n            \x7d catch (error) \x7b\n                const errorMsg = error.message || String(error);\n                if (window.__TAURI__?.event?.emit) \x7b\n                    window.__TAURI__.event.emit(" ++
  sq ++ eid ++ sq ++
  ", \x7b error: errorMsg \x7d);\n                \x7d else \x7b\n                    const \x7b emit \x7d = await import(" ++
  sq ++ "@tauri-apps/api/event" ++ sq ++
  ");\n                    emit(" ++
  sq ++ eid ++ sq ++
  ", \x7b error: errorMsg \x7d);\n                \x7d\n            \x7d\n        \x7d)()\n        "

/-- The event-listener closure of `execute` (`commands.rs` lines 55–92)
applied to one delivered payload.  `some (Except.ok v)` / `some
(Except.error e)` model a send on the result channel; `none` models the
log-only branches (unparsable payload, or neither `result` nor `error`
field), where nothing is sent.  The textual detail serde appends to the
"Failed to parse result JSON: " message is elided. -/
def handleEvent (payload : String) : Option (Except Error Json) :=
  match Json.parse payload with
  | some p =>
    match p.get "result" with
    | some result =>
      match result.asStr with
      | some jsonStr =>
        match Json.parse jsonStr with
        | some parsed => some (Except.ok parsed)
        | none => some (Except.error (Error.ExecuteError "Failed to parse result JSON"))
      | none => some (Except.ok result)
    | none =>
      match p.get "error" with
      | some error => some (Except.error (Error.ExecuteError (error.asStr.getD "Unknown error")))
      | none => none
  | none => none

/-- `rx.recv_timeout` over the payloads delivered on the call's topic
within the 30-second window: the first payload on which the listener
sends resolves the receive; if none sends, the receive times out. -/
def firstResponse : List String → Option (Except Error Json)
  | [] => none
  | p :: ps =>
    match handleEvent p with
    | some r => some r
    | none => firstResponse ps

/-- The app-handle listener table: registered listeners as
`(listener id, topic)` pairs, with the next fresh listener id.  Models
the Tauri event system (an external collaborator): `listen` appends a
fresh entry, `unlisten` removes it, and an emitted event invokes every
listener whose topic equals the event's topic. -/
structure ExecState where
  listeners : List (Nat × String)
  nextId : Nat

/-- Listener ids invoked when an event is delivered on `topic`: all
registered listeners for exactly that topic. -/
def invokedBy (listeners : List (Nat × String)) (topic : String) : List Nat :=
  (listeners.filter (fun l => l.2 == topic)).map (fun l => l.1)

/-- What the remote context does during one `execute` call: whether the
`window.eval` dispatch itself fails (with which message), and which
payloads arrive on the call's topic before the 30-second timeout. -/
structure World where
  evalFails : Bool
  evalErrMsg : String
  events : List String

/-- The outcome of one `execute` call: the returned value or error, the
listener table after the call, and the script dispatched via
`window.eval`. -/
structure ExecOutcome where
  result : Except Error Json
  finalListeners : List (Nat × String)
  dispatched : String

/-- `execute` (`commands.rs` lines 11–145): build the effective script,
allocate the timestamp-derived event id, register the listener, dispatch
the enveloped script via `window.eval` (a failure is returned through
`?` at line 128 — before any `unlisten`), then `recv_timeout(30s)`; all
three receive arms unlisten before returning. -/
def execute (st : ExecState) (timestamp : Nat) (request : ExecuteRequest) (w : World) :
    ExecOutcome :=
  let script := buildScript request
  let eid := eventId timestamp
  let lid := st.nextId
  let listeners1 := st.listeners ++ [(lid, eid)]
  let dispatched := scriptWithReturn script eid
  if w.evalFails then
    { result := Except.error (Error.ExecuteError w.evalErrMsg)
      finalListeners := listeners1
      dispatched := dispatched }
  else
    let listeners2 := listeners1.filter (fun l => l.1 != lid)
    match firstResponse w.events with
    | some (Except.ok r) =>
      { result := Except.ok r, finalListeners := listeners2, dispatched := dispatched }
    | some (Except.error e) =>
      { result := Except.error e, finalListeners := listeners2, dispatched := dispatched }
    | none =>
      { result := Except.error (Error.ExecuteError "Timeout waiting for execute result")
        finalListeners := listeners2
        dispatched := dispatched }

/-- Whether an `execute` outcome is a `SerializationError`. -/
def isSerializationError : Except Error Json → Bool
  | Except.error (Error.SerializationError _) => true
  | _ => false

/-- The message of an `execute` error outcome, if any. -/
def errorMessage : Except Error Json → Option String
  | Except.error (Error.SerializationError m) => some m
  | Except.error (Error.ExecuteError m) => some m
  | Except.error (Error.MockError m) => some m
  | Except.ok _ => none

/-! ### Concrete instances used by witnesses and counterexamples -/

/-- An empty listener table. -/
def st0 : ExecState := { listeners := [], nextId := 0 }

/-- A request with no arguments. -/
def reqPlain : ExecuteRequest := { script := "1 + 1", args := [] }

/-- A request with arguments `[1, "x"]`. -/
def reqArgs : ExecuteRequest := { script := "res", args := [Json.num 1, Json.str "x"] }

/-- A world in which the `window.eval` dispatch itself fails. -/
def wEvalFail : World := { evalFails := true, evalErrMsg := "webview not ready", events := [] }

/-- A world in which the remote context never responds. -/
def wTimeout : World := { evalFails := false, evalErrMsg := "", events := [] }

/-- A world delivering a payload whose `result` field is the string
`"{"`, which is not decodable as JSON. -/
def wBadResult : World :=
  { evalFails := false, evalErrMsg := "", events := ["\x7b\"result\":\"\x7b\"\x7d"] }

/-- A mock config whose own `command` field (`"b"`) differs from the
name it is registered under. -/
def cfgMismatch : MockConfig := { command := "b", return_value := none, implementation := none }

/-! ### Helper lemmas -/

/-- Removing every entry with key `c` from an association list does not
change the lookup of any other key `k`. -/
theorem find_after_other_key_removed (l : List (String × MockConfig)) (c k : String)
    (hk : k ≠ c) :
    (l.filter (fun e => e.1 != c)).find? (fun e => e.1 == k)
      = l.find? (fun e => e.1 == k) := by
  induction l with
  | nil => rfl
  | cons a l ih =>
    by_cases hac : a.1 = c
    · have h1 : (a.1 != c) = false := by simp [hac]
      have h2 : (a.1 == k) = false := by
        simp only [beq_eq_false_iff_ne, ne_eq]
        intro h
        exact hk (hac ▸ h ▸ rfl)
      simp [List.filter_cons, h1, List.find?_cons, h2, ih]
    · have h1 : (a.1 != c) = true := by simp [bne_iff_ne, hac]
      by_cases hak : a.1 = k
      · simp [List.filter_cons, h1, List.find?_cons, hak, hk]
      · have h2 : (a.1 == k) = false := by simp [hak]
        simp [List.filter_cons, h1, List.find?_cons, h2, ih]

/-! ### Claims -/

/-- Every branch of `execute` dispatches the enveloped effective script. -/
theorem execute_dispatched (st : ExecState) (t : Nat) (req : ExecuteRequest) (w : World) :
    (execute st t req w).dispatched = scriptWithReturn (buildScript req) (eventId t) := by
  unfold execute
  cases w.evalFails
  · cases hfr : firstResponse w.events with
    | none => simp [hfr]
    | some r => cases r <;> simp [hfr]
  · simp

/-- C1 (code bug): the correlation id is a function of the clock reading
alone — the comment at `commands.rs` line 42 announces "timestamp +
random number for unique event ID", but only the timestamp enters the
id — so two `Execute` calls that read the same clock value (here 42)
both listen on topic `"wdio:execute:42"`, and a completion delivered on
the first call's topic invokes the second call's listener as well:
correlation ids are not distinct under a timestamp collision, and
cross-talk occurs. -/
theorem C1_timestamp_collision_crosstalk :
    eventId 42 = "wdio:execute:42" ∧
    invokedBy [(0, eventId 42), (1, eventId 42)] (eventId 42) = [0, 1] :=
  ⟨rfl, rfl⟩

/-- C2 (code bug): when the `window.eval` dispatch is rejected,
`execute` returns the error through `?` at `commands.rs` line 128
without unlistening, so the listener registered by the call remains
registered after the error return — unlike the timeout path, which does
deregister it. -/
theorem C2_dispatch_failure_leaks_listener :
    (execute st0 7 reqPlain wEvalFail).result
      = Except.error (Error.ExecuteError "webview not ready") ∧
    (execute st0 7 reqPlain wEvalFail).finalListeners = [(0, eventId 7)] ∧
    (execute st0 7 reqPlain wTimeout).finalListeners = [] :=
  ⟨rfl, rfl, rfl⟩

/-- C3: with an empty `args` list the effective script is
`request.script` verbatim — no wrapping before the completion envelope —
and the dispatched text is exactly the envelope around `request.script`. -/
theorem C3_empty_args_script_verbatim (st : ExecState) (t : Nat) (req : ExecuteRequest)
    (w : World) (h : req.args = []) :
    buildScript req = req.script ∧
    (execute st t req w).dispatched = scriptWithReturn req.script (eventId t) := by
  have hb : buildScript req = req.script := by simp [buildScript, h]
  exact ⟨hb, by rw [execute_dispatched, hb]⟩

/-- Witness for C3 at a concrete argument-less request. -/
theorem C3_witness :
    reqPlain.args = [] ∧
    (buildScript reqPlain = reqPlain.script ∧
     (execute st0 5 reqPlain wTimeout).dispatched
       = scriptWithReturn reqPlain.script (eventId 5)) :=
  ⟨rfl, C3_empty_args_script_verbatim st0 5 reqPlain wTimeout rfl⟩

/-- C4: with a non-empty `args` list the effective script binds
`__wdio_args` — a locally-scoped binding whose value is the JSON
serialization of the args list — and evaluates `request.script` inside
that scope. -/
theorem C4_args_binding (req : ExecuteRequest) (h : req.args ≠ []) :
    buildScript req =
      "(function() \x7b const __wdio_args = " ++ Json.render (Json.arr req.args) ++
        "; return (" ++ req.script ++ "); \x7d)()" := by
  have he : req.args.isEmpty = false := by
    cases hargs : req.args with
    | nil => exact absurd hargs h
    | cons a as => rfl
  simp [buildScript, he]

/-- Witness for C4 at `args = [1, "x"]`: the binding's value is the
serialization `[1,"x"]` of the argument list. -/
theorem C4_witness :
    reqArgs.args ≠ [] ∧
    buildScript reqArgs =
      "(function() \x7b const __wdio_args = " ++ Json.render (Json.arr reqArgs.args) ++
        "; return (" ++ reqArgs.script ++ "); \x7d)()" ∧
    Json.render (Json.arr reqArgs.args) = "[1,\"x\"]" :=
  ⟨List.cons_ne_nil _ _, C4_args_binding reqArgs (List.cons_ne_nil _ _), rfl⟩

/-- C5 counterexample: on the payload `{"result":"{"}` — whose `result`
string `"{"` is not decodable as JSON — `execute` returns an
`ExecuteError`, not the `SerializationError` the claim states. -/
theorem C5_counterexample :
    (execute st0 3 reqPlain wBadResult).result
      = Except.error (Error.ExecuteError "Failed to parse result JSON") ∧
    isSerializationError (execute st0 3 reqPlain wBadResult).result = false :=
  ⟨rfl, rfl⟩

/-- C5 (amended): whenever the delivered payload's `result` field is a
string that fails to decode as JSON, `execute` returns an `ExecuteError`
carrying the parse-failure message — not a `SerializationError`, and not
the raw string. -/
theorem C5_result_decode_failure_execute_error (st : ExecState) (t : Nat)
    (req : ExecuteRequest) (w : World) (payload s : String) (v : Json)
    (hfail : w.evalFails = false) (hev : w.events = [payload])
    (hp : Json.parse payload = some v) (hr : v.get "result" = some (Json.str s))
    (hd : Json.parse s = none) :
    (execute st t req w).result
      = Except.error (Error.ExecuteError "Failed to parse result JSON") := by
  have hh : handleEvent payload
      = some (Except.error (Error.ExecuteError "Failed to parse result JSON")) := by
    simp [handleEvent, hp, hr, Json.asStr, hd]
  have hfr : firstResponse w.events
      = some (Except.error (Error.ExecuteError "Failed to parse result JSON")) := by
    rw [hev]
    simp [firstResponse, hh]
  unfold execute
  simp [hfail, hfr]

/-- Witness for C5's amended theorem at the concrete bad payload. -/
theorem C5_witness :
    wBadResult.evalFails = false ∧
    wBadResult.events = ["\x7b\"result\":\"\x7b\"\x7d"] ∧
    Json.parse "\x7b\"result\":\"\x7b\"\x7d" = some (Json.obj [("result", Json.str "\x7b")]) ∧
    (Json.obj [("result", Json.str "\x7b")]).get "result" = some (Json.str "\x7b") ∧
    Json.parse "\x7b" = none ∧
    (execute st0 4 reqPlain wBadResult).result
      = Except.error (Error.ExecuteError "Failed to parse result JSON") :=
  ⟨rfl, rfl, rfl, rfl, rfl,
    C5_result_decode_failure_execute_error st0 4 reqPlain wBadResult
      "\x7b\"result\":\"\x7b\"\x7d" "\x7b" (Json.obj [("result", Json.str "\x7b")])
      rfl rfl rfl rfl rfl⟩

/-- C6 counterexample: on timeout the returned `ExecuteError` message is
`"Timeout waiting for execute result"`, not the claimed fixed message
`"timeout waiting for result"`. -/
theorem C6_counterexample :
    errorMessage (execute st0 9 reqPlain wTimeout).result
      = some "Timeout waiting for execute result" ∧
    errorMessage (execute st0 9 reqPlain wTimeout).result
      ≠ some "timeout waiting for result" := by
  refine ⟨rfl, ?_⟩
  intro hcontra
  rw [show errorMessage (execute st0 9 reqPlain wTimeout).result
      = some "Timeout waiting for execute result" from rfl] at hcontra
  simp at hcontra

/-- C6 (amended): whenever the dispatch succeeds and no delivered
payload resolves the waiter within the 30-second window, `execute`
returns an `ExecuteError` with the fixed message
`"Timeout waiting for execute result"`, rather than blocking forever. -/
theorem C6_timeout_execute_error (st : ExecState) (t : Nat) (req : ExecuteRequest)
    (w : World) (hfail : w.evalFails = false) (hnone : firstResponse w.events = none) :
    (execute st t req w).result
      = Except.error (Error.ExecuteError "Timeout waiting for execute result") := by
  unfold execute
  simp [hfail, hnone]

/-- Witness for C6's amended theorem in the silent world. -/
theorem C6_witness :
    wTimeout.evalFails = false ∧
    firstResponse wTimeout.events = none ∧
    (execute st0 8 reqPlain wTimeout).result
      = Except.error (Error.ExecuteError "Timeout waiting for execute result") :=
  ⟨rfl, rfl, C6_timeout_execute_error st0 8 reqPlain wTimeout rfl rfl⟩

/-- C9: a payload that is valid JSON but carries neither a `result` nor
an `error` field sends nothing on the waiter's channel (it is only
logged), and the call behaves exactly as if that payload had not been
delivered — proceeding to a later well-formed resolution or to the
normal timeout. -/
theorem C9_unrecognized_payload_ignored (payload : String) (v : Json) (rest : List String)
    (st : ExecState) (t : Nat) (req : ExecuteRequest) (m : String)
    (hp : Json.parse payload = some v) (hr : v.get "result" = none)
    (he : v.get "error" = none) :
    handleEvent payload = none ∧
    firstResponse (payload :: rest) = firstResponse rest ∧
    execute st t req { evalFails := false, evalErrMsg := m, events := payload :: rest }
      = execute st t req { evalFails := false, evalErrMsg := m, events := rest } := by
  have hh : handleEvent payload = none := by
    simp [handleEvent, hp, hr, he]
  have hfr : firstResponse (payload :: rest) = firstResponse rest := by
    simp [firstResponse, hh]
  refine ⟨hh, hfr, ?_⟩
  unfold execute
  simp [hfr]

/-- Witness for C9 at the concrete payload `{"foo":1}`. -/
theorem C9_witness :
    Json.parse "\x7b\"foo\":1\x7d" = some (Json.obj [("foo", Json.num 1)]) ∧
    (Json.obj [("foo", Json.num 1)]).get "result" = none ∧
    (Json.obj [("foo", Json.num 1)]).get "error" = none ∧
    (handleEvent "\x7b\"foo\":1\x7d" = none ∧
     firstResponse ["\x7b\"foo\":1\x7d"] = firstResponse [] ∧
     execute st0 11 reqPlain
         { evalFails := false, evalErrMsg := "", events := ["\x7b\"foo\":1\x7d"] }
       = execute st0 11 reqPlain { evalFails := false, evalErrMsg := "", events := [] }) :=
  ⟨rfl, rfl, rfl,
    C9_unrecognized_payload_ignored "\x7b\"foo\":1\x7d" (Json.obj [("foo", Json.num 1)]) []
      st0 11 reqPlain "" rfl rfl rfl⟩

/-- C7: for every command name `c` and config `cfg`, `GetMock(c)` right
after `SetMock(c, cfg)` returns `cfg`, and after `ClearMocks()` the
lookup of every command name returns absent. -/
theorem C7_set_get_clear (s : MockStore) (c : String) (cfg : MockConfig) (c2 : String) :
    (s.set_mock c cfg).get_mock c = some cfg ∧ s.clear_mocks.get_mock c2 = none := by
  constructor
  · simp [MockStore.set_mock, MockStore.get_mock, List.find?_cons]
  · simp [MockStore.clear_mocks, MockStore.get_mock]

/-- C8: `ClearMocks` empties the mock table and leaves the
original-handler storage unchanged; `ResetMocks` empties both, so the
state after `ResetMocks` is componentwise a subset of the state after
`ClearMocks` on the same starting state. -/
theorem C8_reset_subset_clear (s : MockStore) :
    s.clear_mocks.mocks = [] ∧
    s.clear_mocks.original_handlers = s.original_handlers ∧
    s.reset_mocks.mocks = [] ∧
    s.reset_mocks.original_handlers = [] ∧
    s.reset_mocks.mocks ⊆ s.clear_mocks.mocks ∧
    s.reset_mocks.original_handlers ⊆ s.clear_mocks.original_handlers := by
  refine ⟨rfl, rfl, rfl, rfl, ?_, ?_⟩ <;> simp [MockStore.reset_mocks, MockStore.clear_mocks]

/-- C10: the registry is keyed solely by the `command` argument of
`SetMock`: registering `cfg` under a name `c` different from
`cfg.command` makes `GetMock(c)` return `cfg` verbatim and leaves the
entry for `cfg.command` unchanged. -/
theorem C10_keyed_by_argument (s : MockStore) (c : String) (cfg : MockConfig)
    (h : cfg.command ≠ c) :
    (s.set_mock c cfg).get_mock c = some cfg ∧
    (s.set_mock c cfg).get_mock cfg.command = s.get_mock cfg.command := by
  constructor
  · simp [MockStore.set_mock, MockStore.get_mock, List.find?_cons]
  · have h2 : (c == cfg.command) = false := by
      simp only [beq_eq_false_iff_ne, ne_eq]
      exact fun hc => h hc.symm
    simp [MockStore.set_mock, MockStore.get_mock, List.find?_cons, h2,
      find_after_other_key_removed s.mocks c cfg.command h]

/-- Witness for C10 at the registry's initial state, `c = "a"` and a
config whose own command field is `"b"`. -/
theorem C10_witness :
    cfgMismatch.command ≠ "a" ∧
    ((MockStore.new.set_mock "a" cfgMismatch).get_mock "a" = some cfgMismatch ∧
     (MockStore.new.set_mock "a" cfgMismatch).get_mock cfgMismatch.command
       = MockStore.new.get_mock cfgMismatch.command) :=
  ⟨by decide, C10_keyed_by_argument MockStore.new "a" cfgMismatch (by decide)⟩

end Wdio
